import Mathlib

set_option maxHeartbeats 1000000

/-!
Shallow embedding of the core of the `scop` 3D model viewer:
the Wavefront-style mesh parser (`Object::parseFile`), the centroid
computation (`Object::calculateCenter`), the model-matrix composition
(`Object::getMatrix`), the pivot-centered Y rotation
(`Object::updateRotationMatrixY`), the camera zoom
(`Camera::updateCameraZoom`), the material loader (`Material::create`), and
the vector/matrix kernel (`vectorOperations.cpp`, `matrixOperations.cpp`).

Modelling conventions:
* C++ `float`/`double` arithmetic is embedded as exact arithmetic: `ℚ` for
  the parser/camera/material state (so results are computable) and `ℝ` for
  the transform algebra (which uses `cos`, `sin`, `sqrt`).
* A file is `Option (List (List Char))`: `none` models an unreadable file
  (`std::ifstream` open failure), `some lines` the list of lines delivered
  by `getline`.
* `std::istringstream` extraction is modelled at whitespace-token
  granularity: a numeric extraction succeeds exactly on a whole decimal
  token (all inputs exercised by the claims are of this plain form).
-/

namespace Scop

/-- Largest value of a C++ 32-bit `unsigned int`. -/
def UINT32_MAX : Nat := 4294967295

/-- Whitespace on which `std::istringstream` token extraction splits. -/
def isSpaceChar (c : Char) : Bool := c = ' ' || c = '\t' || c = '\r'

/-- Accumulator-based splitting of a line into whitespace-separated tokens. -/
def tokenizeAux : List Char → List Char → List (List Char)
  | [], acc => if acc = [] then [] else [acc.reverse]
  | c :: cs, acc =>
    if isSpaceChar c then
      if acc = [] then tokenizeAux cs []
      else acc.reverse :: tokenizeAux cs []
    else tokenizeAux cs (c :: acc)

/-- The whitespace-separated tokens of a line. -/
def tokenize (line : List Char) : List (List Char) := tokenizeAux line []

/-- Numeric value of a list of decimal digits. -/
def digitsVal (cs : List Char) : Nat :=
  cs.foldl (fun n c => 10 * n + (c.toNat - Char.toNat '0')) 0

/-- Extraction `ss >> index` for `unsigned int` on one token: succeeds on a non-empty
all-digit token whose value fits in 32 bits, fails otherwise (a failed
extraction sets the stream's failbit, which ends the read loop). -/
def readUInt (t : List Char) : Option Nat :=
  if t ≠ [] ∧ t.all Char.isDigit then
    if digitsVal t ≤ UINT32_MAX then some (digitsVal t) else none
  else none

/-- Value contributed by the digits after the decimal point. -/
def fracVal : List Char → ℚ
  | [] => 0
  | c :: cs => ((c.toNat - Char.toNat '0' : ℕ) + fracVal cs) / 10

/-- Unsigned decimal literal (digits, optionally a point and more digits). -/
def readUnsignedFloat (t : List Char) : Option ℚ :=
  let intPart := t.takeWhile Char.isDigit
  let rest := t.dropWhile Char.isDigit
  match rest with
  | [] => if intPart = [] then none else some (digitsVal intPart)
  | '.' :: frac =>
    if intPart = [] ∧ frac = [] then none
    else if frac.all Char.isDigit then some ((digitsVal intPart : ℚ) + fracVal frac)
    else none
  | _ => none

/-- Extraction `ss >> x` for `float` on one token: an optionally signed decimal. -/
def readFloat (t : List Char) : Option ℚ :=
  match t with
  | '-' :: rest => (readUnsignedFloat rest).map Neg.neg
  | '+' :: rest => readUnsignedFloat rest
  | _ => readUnsignedFloat t

/-- Extraction `ss >> x >> y >> z` for three `float`s: since C++11 a failed extraction
value-initializes the target to `0`, and the failbit makes every later
extraction on the same stream fail as well. -/
def readVec3 (ts : List (List Char)) : ℚ × ℚ × ℚ :=
  match ts with
  | [] => (0, 0, 0)
  | t1 :: ts1 =>
    match readFloat t1 with
    | none => (0, 0, 0)
    | some x =>
      match ts1 with
      | [] => (x, 0, 0)
      | t2 :: ts2 =>
        match readFloat t2 with
        | none => (x, 0, 0)
        | some y =>
          match ts2 with
          | [] => (x, y, 0)
          | t3 :: _ =>
            match readFloat t3 with
            | none => (x, y, 0)
            | some z => (x, y, z)

/-- The C++ `struct Vertex` from `Object.hpp`, with fields `position`,
`uv` and `normal`. -/
structure Vertex where
  position : ℚ × ℚ × ℚ
  uv : ℚ × ℚ
  normal : ℚ × ℚ × ℚ
deriving DecidableEq

/-- The two containers `Object::parseFile` fills: `m_vertices` and
`m_indices` (index values are those of the C++ `unsigned int`s). -/
structure ParseState where
  vertices : List Vertex
  indices : List Nat
deriving DecidableEq

/-- The loop `while (ss >> index) indices.push_back(index - 1);` — the decrement is
done on `unsigned int`, so it wraps modulo `2^32`; the loop stops at the
first token that fails to extract. -/
def readIndices : List (List Char) → List Nat
  | [] => []
  | t :: ts =>
    match readUInt t with
    | some n => ((n + UINT32_MAX) % (UINT32_MAX + 1)) :: readIndices ts
    | none => []

/-- Lines 230-242 of `Object.cpp`: exactly 3 read indices emit one triangle,
exactly 4 emit the two triangles `(i0,i1,i2)` and `(i0,i2,i3)`, any other
count emits nothing. -/
def faceTriangles : List Nat → List Nat
  | [a, b, c] => [a, b, c]
  | [a, b, c, d] => [a, b, c, a, c, d]
  | _ => []

/-- Dispatch on the first extracted token (`ss >> prefix`): a `"v"` line
appends a vertex (position parsed, `uv = (0,0)`, zero-initialized normal),
an `"f"` line appends the triangles of its read indices, anything else is
ignored. -/
def processTokens (st : ParseState) : List (List Char) → ParseState
  | [] => st
  | key :: rest =>
    if key = ['v'] then
      { st with vertices :=
          st.vertices ++ [{ position := readVec3 rest, uv := (0, 0), normal := (0, 0, 0) }] }
    else if key = ['f'] then
      { st with indices := st.indices ++ faceTriangles (readIndices rest) }
    else st

/-- One iteration of the `getline` loop of `Object::parseFile`: skip empty
lines and lines whose first character is `'#'`, otherwise tokenize. -/
def processLine (st : ParseState) (line : List Char) : ParseState :=
  match line with
  | [] => st
  | c :: _ => if c = '#' then st else processTokens st (tokenize line)

/-- The whole `getline` loop, starting from empty `m_vertices`/`m_indices`. -/
def parseLines (lines : List (List Char)) : ParseState :=
  lines.foldl processLine { vertices := [], indices := [] }

/-- The function `Object::parseFile` as a whole: `none` (C++ return value 1) when the
file cannot be opened or when, after the loop, the vertex list or the index
list is empty; otherwise the parsed mesh (C++ return value 0).  The
`calculateUV_XY` and `computeNormals` passes run on success but only mutate
the `uv`/`normal` fields, which no claim depends on. -/
def parseFile (file : Option (List (List Char))) : Option ParseState :=
  match file with
  | none => none
  | some lines =>
    if (parseLines lines).vertices = [] ∨ (parseLines lines).indices = [] then none
    else some (parseLines lines)

/-- The function `Object::create` returns `nullptr` exactly when `parseFile` fails;
on success it goes on to buffers, center, scale and matrices. -/
def Object.create (file : Option (List (List Char))) : Option ParseState :=
  parseFile file

/-- The function `Object::calculateCenter`: one loop summing the three coordinates
(modelled as one fold per accumulator), then division by the vertex count. -/
def calculateCenter (vertices : List Vertex) : ℚ × ℚ × ℚ :=
  let count : ℚ := (vertices.length : ℚ)
  let sumX : ℚ := vertices.foldl (fun s v => s + v.position.1) 0
  let sumY : ℚ := vertices.foldl (fun s v => s + v.position.2.1) 0
  let sumZ : ℚ := vertices.foldl (fun s v => s + v.position.2.2) 0
  (sumX / count, sumY / count, sumZ / count)

/-- The camera constructor initializes `m_fov` to `45.0f`. -/
def initialFov : ℚ := 45

/-- The function `Camera::updateCameraZoom`: subtract `dy` only when the current fov lies
in `[1, 45]` (without clamping the result); otherwise reset an out-of-range
fov to the nearest bound without applying `dy`. -/
def updateCameraZoom (dy fov : ℚ) : ℚ :=
  if 1 ≤ fov ∧ fov ≤ 45 then fov - dy
  else if fov < 1 then 1
  else 45

/-- The struct `MaterialParams` from `Material.hpp`.  The C++ struct has no member
initializers, so a default-constructed instance has an empty `name` and
indeterminate numeric fields. -/
structure MaterialParams where
  name : List Char
  Ns : ℚ
  Ka : ℚ × ℚ × ℚ
  Kd : ℚ × ℚ × ℚ
  Ks : ℚ × ℚ × ℚ
  Ke : ℚ × ℚ × ℚ
  Ni : ℚ
  opacity : ℚ
  illum : ℚ
deriving DecidableEq

/-- The function `Material::setDefaultParams` (the float literal `0.8f` is embedded as
the exact rational `4/5`). -/
def setDefaultParams : MaterialParams where
  name := "defaultParamsSettings".toList
  Ns := 10
  Ka := (0, 0, 0)
  Kd := (4/5, 4/5, 4/5)
  Ks := (0, 0, 0)
  Ke := (0, 0, 0)
  opacity := 1
  Ni := 1
  illum := 2

/-- Extraction `ss >> x` for a single `float` field: a failed or absent extraction
value-initializes the target to `0` (C++11). -/
def readFloat1 (ts : List (List Char)) : ℚ :=
  match ts with
  | [] => 0
  | t :: _ => (readFloat t).getD 0

/-- One iteration of the `getline` loop of `Material::parseFile`: skip empty
and `#` lines, then update the field selected by the first token.  (A failed
`std::string` extraction for `newmtl` leaves the name empty.) -/
def parseMtlLine (p : MaterialParams) (line : List Char) : MaterialParams :=
  match line with
  | [] => p
  | c :: _ =>
    if c = '#' then p
    else
      match tokenize line with
      | [] => p
      | key :: rest =>
        if key = "newmtl".toList then { p with name := rest.headD [] }
        else if key = "Ns".toList then { p with Ns := readFloat1 rest }
        else if key = "Ka".toList then { p with Ka := readVec3 rest }
        else if key = "Kd".toList then { p with Kd := readVec3 rest }
        else if key = "Ks".toList then { p with Ks := readVec3 rest }
        else if key = "Ke".toList then { p with Ke := readVec3 rest }
        else if key = "Ni".toList then { p with Ni := readFloat1 rest }
        else if key = "d".toList then { p with opacity := readFloat1 rest }
        else if key = "illum".toList then { p with illum := readFloat1 rest }
        else p

/-- The function `Material::create`: `Material::parseFile` returns `false` exactly when
the file cannot be opened (`none`), in which case `setDefaultParams` runs;
an openable file is processed line by line and reported as success whatever
its content.  `init` is the default-constructed `m_params` (numeric fields
indeterminate in C++, hence an arbitrary parameter here). -/
def Material.create (file : Option (List (List Char))) (init : MaterialParams) :
    MaterialParams :=
  match file with
  | none => setDefaultParams
  | some lines => lines.foldl parseMtlLine init

/-! ## The `float[16]` matrix kernel (`matrixOperations.cpp`), over `ℝ` -/

/-- A 4x4 matrix stored as a flat array of 16 floats, as in the source. -/
def Mat16 : Type := Fin 16 → ℝ

/-- The function `getIdentityMat4`. -/
noncomputable def getIdentityMat4 : Mat16 := fun i =>
  if i.val = 0 then 1
  else if i.val = 5 then 1
  else if i.val = 10 then 1
  else if i.val = 15 then 1
  else 0

/-- The function `translateMatrix(mat, x, y, z)`: adds `(x, y, z)` into slots 12/13/14. -/
noncomputable def translateMatrix (mat : Mat16) (x y z : ℝ) : Mat16 := fun i =>
  if i.val = 12 then mat i + x
  else if i.val = 13 then mat i + y
  else if i.val = 14 then mat i + z
  else mat i

/-- The function `multiplyMatrix(m1, m2)`:
`result[row*4+col] = Σ_k m1[row*4+k] * m2[k*4+col]`, the inner `k` loop
unrolled over its four fixed iterations. -/
noncomputable def multiplyMatrix (m1 m2 : Mat16) : Mat16 := fun i =>
  m1 ⟨i.val / 4 * 4 + 0, by have h1 := i.isLt; omega⟩ *
      m2 ⟨0 * 4 + i.val % 4, by have h1 := i.isLt; omega⟩
    + m1 ⟨i.val / 4 * 4 + 1, by have h1 := i.isLt; omega⟩ *
      m2 ⟨1 * 4 + i.val % 4, by have h1 := i.isLt; omega⟩
    + m1 ⟨i.val / 4 * 4 + 2, by have h1 := i.isLt; omega⟩ *
      m2 ⟨2 * 4 + i.val % 4, by have h1 := i.isLt; omega⟩
    + m1 ⟨i.val / 4 * 4 + 3, by have h1 := i.isLt; omega⟩ *
      m2 ⟨3 * 4 + i.val % 4, by have h1 := i.isLt; omega⟩

/-- The function `scaleMatrix(matrix, scaleFactor)`: multiplies slots 0/5/10/12/13/14. -/
noncomputable def scaleMatrix (matrix : Mat16) (scaleFactor : ℝ) : Mat16 := fun i =>
  if i.val = 0 then matrix i * scaleFactor
  else if i.val = 5 then matrix i * scaleFactor
  else if i.val = 10 then matrix i * scaleFactor
  else if i.val = 12 then matrix i * scaleFactor
  else if i.val = 13 then matrix i * scaleFactor
  else if i.val = 14 then matrix i * scaleFactor
  else matrix i

/-- The function `getRotationMatrixY(angle)` (the angle is fed to `cos`/`sin` as is). -/
noncomputable def getRotationMatrixY (angle : ℝ) : Mat16 := fun i =>
  if i.val = 0 then Real.cos angle
  else if i.val = 2 then Real.sin angle
  else if i.val = 5 then 1
  else if i.val = 8 then -Real.sin angle
  else if i.val = 10 then Real.cos angle
  else if i.val = 15 then 1
  else 0

/-! ## The vector kernel (`vectorOperations.cpp`), over `ℝ` -/

/-- The length computed inside `normalizeVec`. -/
noncomputable def vecLength (vec : ℝ × ℝ × ℝ) : ℝ :=
  Real.sqrt (vec.1 * vec.1 + vec.2.1 * vec.2.1 + vec.2.2 * vec.2.2)

/-- The function `normalizeVec(vec)`: divide by the length, except that a zero length
returns the zero vector instead of dividing. -/
noncomputable def normalizeVec (vec : ℝ × ℝ × ℝ) : ℝ × ℝ × ℝ :=
  if vecLength vec = 0 then (0, 0, 0)
  else (vec.1 / vecLength vec, vec.2.1 / vecLength vec, vec.2.2 / vecLength vec)

/-! ## Object transform state (`Object.cpp`), over `ℝ` -/

/-- The transform-relevant fields of `Object`. -/
structure ObjectState where
  center : ℝ × ℝ × ℝ
  scaleFactor : ℝ
  translationMatrix : Mat16
  rotationMatrix : Mat16

/-- The function `Object::getMatrix`: recomputed on every call in this fixed order. -/
noncomputable def getMatrix (obj : ObjectState) : Mat16 :=
  let m1 := translateMatrix getIdentityMat4 (-obj.center.1) (-obj.center.2.1) (-obj.center.2.2)
  let m2 := scaleMatrix m1 obj.scaleFactor
  let m3 := multiplyMatrix m2 obj.translationMatrix
  multiplyMatrix obj.rotationMatrix m3

/-- The function `Object::updateRotationMatrixY(angle)`: the new rotation matrix as a
function of the object's center and previous rotation matrix. -/
noncomputable def updateRotationMatrixY (center : ℝ × ℝ × ℝ) (angle : ℝ)
    (rotationMatrix : Mat16) : Mat16 :=
  let centeredMatrix := translateMatrix getIdentityMat4 (-center.1) (-center.2.1) (-center.2.2)
  let rotationY := getRotationMatrixY angle
  let originMatrix := translateMatrix getIdentityMat4 center.1 center.2.1 center.2.2
  let rotAroundCenter := multiplyMatrix centeredMatrix (multiplyMatrix rotationY originMatrix)
  multiplyMatrix rotAroundCenter rotationMatrix

/-- The index-validity invariant the specification asserts for parsed
meshes: every stored index addresses an existing vertex. -/
def indicesWithinBounds (st : ParseState) : Prop :=
  ∀ i ∈ st.indices, i < st.vertices.length

instance (st : ParseState) : Decidable (indicesWithinBounds st) :=
  inferInstanceAs (Decidable (∀ i ∈ st.indices, i < st.vertices.length))

/-! ## Theorems -/

/-- A successfully extracted `unsigned int` fits in 32 bits. -/
theorem readUInt_le (t : List Char) (n : Nat) (h : readUInt t = some n) :
    n ≤ UINT32_MAX := by
  unfold readUInt at h
  by_cases h1 : t ≠ [] ∧ t.all Char.isDigit
  · rw [if_pos h1] at h
    by_cases h2 : digitsVal t ≤ UINT32_MAX
    · rw [if_pos h2] at h
      exact Option.some.inj h ▸ h2
    · rw [if_neg h2] at h
      exact absurd h (by simp)
  · rw [if_neg h1] at h
    exact absurd h (by simp)

/-- Claim C1: A face line with exactly 3 read indices emits one triangle
preserving order, one with exactly 4 emits the triangles `(i0,i1,i2)` and
`(i0,i2,i3)`, and any other index count emits no triangle; each index token
is decremented on read, turning 1-based indices into 0-based ones. -/
theorem faceLine_triangle_emission :
    (∀ (st : ParseState) (rest : List (List Char)),
        processTokens st (['f'] :: rest)
          = { st with indices := st.indices ++ faceTriangles (readIndices rest) })
    ∧ (∀ a b c : Nat, faceTriangles [a, b, c] = [a, b, c])
    ∧ (∀ a b c d : Nat, faceTriangles [a, b, c, d] = [a, b, c, a, c, d])
    ∧ (∀ l : List Nat, l.length ≠ 3 → l.length ≠ 4 → faceTriangles l = [])
    ∧ (∀ (t : List Char) (ts : List (List Char)) (n : Nat),
        readUInt t = some n → 1 ≤ n →
          readIndices (t :: ts) = (n - 1) :: readIndices ts)
    ∧ (∀ (vertices : List Vertex) (indices : List Nat),
        processLine ⟨vertices, indices⟩ ("f 1 2 3 4".toList)
          = ⟨vertices, indices ++ [0, 1, 2, 0, 2, 3]⟩) := by
  refine ⟨fun st rest => rfl, fun a b c => rfl, fun a b c d => rfl, ?_, ?_, fun vs is => rfl⟩
  · intro l h3 h4
    match l with
    | [] => rfl
    | [a] => rfl
    | [a, b] => rfl
    | [a, b, c] => exact absurd rfl h3
    | [a, b, c, d] => exact absurd rfl h4
    | a :: b :: c :: d :: e :: rest => rfl
  · intro t ts n h hn
    have hle := readUInt_le t n h
    simp only [readIndices, h]
    have : (n + UINT32_MAX) % (UINT32_MAX + 1) = n - 1 := by
      simp only [UINT32_MAX] at hle ⊢
      omega
    rw [this]

/-- Witness for C1 at concrete inputs: the token `"5"` is read and
decremented, and a 2-index face line emits nothing. -/
theorem faceLine_triangle_emission_witness :
    readIndices [['5'], ['6']] = 4 :: readIndices [['6']]
    ∧ faceTriangles [7, 8] = [] :=
  ⟨faceLine_triangle_emission.2.2.2.2.1 ['5'] [['6']] 5 (by decide) (by decide),
   faceLine_triangle_emission.2.2.2.1 [7, 8] (by decide) (by decide)⟩

/-- Claim C10: A face index token `0` is read as an `unsigned int` and
decremented before any check, wrapping to `2^32 - 1 = 4294967295`; the face
is neither rejected nor dropped. -/
theorem face_index_zero_wraps :
    (∀ ts : List (List Char),
        readIndices (['0'] :: ts) = 4294967295 :: readIndices ts)
    ∧ parseFile (some ["v 0 0 0".toList, "f 0 2 3".toList])
        = some { vertices := [{ position := (0, 0, 0), uv := (0, 0), normal := (0, 0, 0) }],
                 indices := [4294967295, 1, 2] } :=
  ⟨fun ts => rfl, by decide⟩

/-- Claim C3: Mesh loading yields no object exactly when the file is
unreadable or when, after the full parse, the vertex list or the index list
is empty; in particular a file with only `v` lines, or only `f` lines,
fails.  Otherwise it succeeds. -/
theorem parse_failure_condition :
    (∀ file : Option (List (List Char)),
        Object.create file = none
          ↔ file = none
            ∨ ∃ lines, file = some lines
                ∧ ((parseLines lines).vertices = [] ∨ (parseLines lines).indices = []))
    ∧ Object.create (some ["v 0 0 0".toList, "v 1 1 1".toList]) = none
    ∧ Object.create (some ["f 1 2 3".toList]) = none := by
  refine ⟨?_, by decide, by decide⟩
  intro file
  cases file with
  | none => simp [Object.create, parseFile]
  | some lines =>
    by_cases h : (parseLines lines).vertices = [] ∨ (parseLines lines).indices = []
    · simp [Object.create, parseFile, h]
    · simp [Object.create, parseFile, h]

/-- Claim C2, counterexample: The parser performs no range check of face
indices against the vertex count: the two-line file `v 0 0 0` / `f 2 3 4`
parses successfully although its indices `1, 2, 3` all address past the
single vertex. -/
theorem index_validity_counterexample :
    parseFile (some ["v 0 0 0".toList, "f 2 3 4".toList])
      = some { vertices := [{ position := (0, 0, 0), uv := (0, 0), normal := (0, 0, 0) }],
               indices := [1, 2, 3] }
    ∧ ¬ indicesWithinBounds
        { vertices := [{ position := (0, 0, 0), uv := (0, 0), normal := (0, 0, 0) }],
          indices := [1, 2, 3] } := by
  constructor
  · decide
  · decide

/-- Appending the triangles of one face keeps the index count divisible
by 3. -/
theorem faceTriangles_length_cases (l : List Nat) :
    (faceTriangles l).length = 0 ∨ (faceTriangles l).length = 3
      ∨ (faceTriangles l).length = 6 := by
  match l with
  | [] => simp [faceTriangles]
  | [a] => simp [faceTriangles]
  | [a, b] => simp [faceTriangles]
  | [a, b, c] => simp [faceTriangles]
  | [a, b, c, d] => simp [faceTriangles]
  | a :: b :: c :: d :: e :: rest => simp [faceTriangles]

/-- Each parsed line preserves divisibility of the index count by 3. -/
theorem processLine_indices_mod (st : ParseState) (line : List Char)
    (h : st.indices.length % 3 = 0) :
    ((processLine st line).indices).length % 3 = 0 := by
  match line with
  | [] => exact h
  | c :: cs =>
    simp only [processLine]
    by_cases hc : c = '#'
    · rw [if_pos hc]; exact h
    · rw [if_neg hc]
      match tokenize (c :: cs) with
      | [] => exact h
      | key :: rest =>
        simp only [processTokens]
        by_cases hv : key = ['v']
        · rw [if_pos hv]; exact h
        · rw [if_neg hv]
          by_cases hf : key = ['f']
          · rw [if_pos hf]
            simp only [List.length_append]
            rcases faceTriangles_length_cases (readIndices rest) with h6 | h6 | h6 <;>
              rw [h6] <;> omega
          · rw [if_neg hf]; exact h

/-- Claim C2, amended: For every mesh text on which parsing succeeds, the
length of the index list is a multiple of 3.  (The other half of the
original claim — every index `< vertex count` — is refuted by
`index_validity_counterexample`: indices are never range-checked.) -/
theorem index_list_length_multiple_of_three
    (file : Option (List (List Char))) (st : ParseState)
    (h : parseFile file = some st) : st.indices.length % 3 = 0 := by
  match file with
  | none => exact absurd h (by simp [parseFile])
  | some lines =>
    have hst : st = parseLines lines := by
      simp only [parseFile] at h
      by_cases hcond : (parseLines lines).vertices = [] ∨ (parseLines lines).indices = []
      · rw [if_pos hcond] at h; exact absurd h (by simp)
      · rw [if_neg hcond] at h; exact (Option.some.inj h).symm
    subst hst
    unfold parseLines
    have key : ∀ (ls : List (List Char)) (st0 : ParseState),
        st0.indices.length % 3 = 0 →
          ((ls.foldl processLine st0).indices).length % 3 = 0 := by
      intro ls
      induction ls with
      | nil => intro st0 h0; exact h0
      | cons l ls ih =>
        intro st0 h0
        exact ih (processLine st0 l) (processLine_indices_mod st0 l h0)
    exact key lines { vertices := [], indices := [] } (by decide)

/-- Witness for the amended C2 at a concrete successfully parsed file. -/
theorem index_list_length_multiple_of_three_witness :
    (ParseState.mk [{ position := (0, 0, 0), uv := (0, 0), normal := (0, 0, 0) }]
        [0, 0, 0]).indices.length % 3 = 0 :=
  index_list_length_multiple_of_three
    (some ["v 0 0 0".toList, "f 1 1 1".toList]) _ (by decide)

/-- Claim C5, counterexample: A single `zoom(+1000)` from the initial fov 45
leaves the fov at `-955`, outside `[1, 45]`: the subtraction is not
clamped, so the fov does not stay in `[1, 45]` after every zoom call. -/
theorem fov_clamp_counterexample :
    updateCameraZoom 1000 initialFov = -955
    ∧ ¬ (1 ≤ updateCameraZoom 1000 initialFov
          ∧ updateCameraZoom 1000 initialFov ≤ 45) := by
  have h : updateCameraZoom 1000 initialFov = -955 := by
    norm_num [updateCameraZoom, initialFov]
  refine ⟨h, ?_⟩
  rw [h]
  norm_num

/-- Claim C5, amended: `zoom(scrollDelta)` subtracts `scrollDelta` only when
the fov lies in `[1, 45]`, without clamping the result, and resets an
out-of-range fov to the nearest bound without applying the delta.  From the
initial fov 45, repeated `zoom(+1000)` therefore alternates, equal to
exactly 1 after every even number (≥ 2) of calls and to `-999` after every
odd number (≥ 3); repeated `zoom(-1000)` alternates between exactly 45
(even counts ≥ 2) and 1045 (odd counts ≥ 3). -/
theorem fov_zoom_behavior :
    (∀ dy fov : ℚ,
        updateCameraZoom dy fov
          = if 1 ≤ fov ∧ fov ≤ 45 then fov - dy else if fov < 1 then 1 else 45)
    ∧ ∀ k : ℕ, 1 ≤ k →
        (updateCameraZoom 1000)^[2 * k] initialFov = 1
        ∧ (updateCameraZoom 1000)^[2 * k + 1] initialFov = -999
        ∧ (updateCameraZoom (-1000))^[2 * k] initialFov = 45
        ∧ (updateCameraZoom (-1000))^[2 * k + 1] initialFov = 1045 := by
  have hp1 : updateCameraZoom 1000 (45 : ℚ) = -955 := by norm_num [updateCameraZoom]
  have hp2 : updateCameraZoom 1000 (-955 : ℚ) = 1 := by norm_num [updateCameraZoom]
  have hp3 : updateCameraZoom 1000 (1 : ℚ) = -999 := by norm_num [updateCameraZoom]
  have hp4 : updateCameraZoom 1000 (-999 : ℚ) = 1 := by norm_num [updateCameraZoom]
  have hm1 : updateCameraZoom (-1000) (45 : ℚ) = 1045 := by norm_num [updateCameraZoom]
  have hm2 : updateCameraZoom (-1000) (1045 : ℚ) = 45 := by norm_num [updateCameraZoom]
  have hfix1 : (updateCameraZoom 1000)^[2] (1 : ℚ) = 1 := by
    show updateCameraZoom 1000 (updateCameraZoom 1000 1) = 1
    rw [hp3, hp4]
  have hfix3 : (updateCameraZoom 1000)^[2] (-999 : ℚ) = -999 := by
    show updateCameraZoom 1000 (updateCameraZoom 1000 (-999)) = -999
    rw [hp4, hp3]
  have hfix2 : (updateCameraZoom (-1000))^[2] (45 : ℚ) = 45 := by
    show updateCameraZoom (-1000) (updateCameraZoom (-1000) 45) = 45
    rw [hm1, hm2]
  have hfix4 : (updateCameraZoom (-1000))^[2] (1045 : ℚ) = 1045 := by
    show updateCameraZoom (-1000) (updateCameraZoom (-1000) 1045) = 1045
    rw [hm2, hm1]
  refine ⟨fun dy fov => rfl, ?_⟩
  intro k hk
  induction k, hk using Nat.le_induction with
  | base =>
    simp only [initialFov]
    refine ⟨?_, ?_, ?_, ?_⟩
    · show updateCameraZoom 1000 (updateCameraZoom 1000 45) = 1
      rw [hp1, hp2]
    · show updateCameraZoom 1000 (updateCameraZoom 1000 (updateCameraZoom 1000 45)) = -999
      rw [hp1, hp2, hp3]
    · show updateCameraZoom (-1000) (updateCameraZoom (-1000) 45) = 45
      rw [hm1, hm2]
    · show updateCameraZoom (-1000)
          (updateCameraZoom (-1000) (updateCameraZoom (-1000) 45)) = 1045
      rw [hm1, hm2, hm1]
  | succ k hk ih =>
    obtain ⟨ih1, ih2, ih3, ih4⟩ := ih
    have h2k : 2 * (k + 1) = 2 + 2 * k := by ring
    have h2k1 : 2 * (k + 1) + 1 = 2 + (2 * k + 1) := by ring
    refine ⟨?_, ?_, ?_, ?_⟩
    · rw [h2k, Function.iterate_add_apply, ih1, hfix1]
    · rw [h2k1, Function.iterate_add_apply, ih2, hfix3]
    · rw [h2k, Function.iterate_add_apply, ih3, hfix2]
    · rw [h2k1, Function.iterate_add_apply, ih4, hfix4]

/-- Witness for the amended C5 at two calls (and three calls) of each
direction. -/
theorem fov_zoom_behavior_witness :
    (updateCameraZoom 1000)^[2 * 1] initialFov = 1
    ∧ (updateCameraZoom 1000)^[2 * 1 + 1] initialFov = -999
    ∧ (updateCameraZoom (-1000))^[2 * 1] initialFov = 45
    ∧ (updateCameraZoom (-1000))^[2 * 1 + 1] initialFov = 1045 :=
  fov_zoom_behavior.2 1 (by decide)

/-- Claim C8, counterexample: A material file that opens but contains no
recognized directive (here the single line `x`) is treated as a successful
parse — `Material::parseFile` returns `false` only on open failure — so
`setDefaultParams` is not called and the parameters keep their previous
(default-constructed, indeterminate) values instead of the fallback set. -/
theorem material_defaults_counterexample :
    (Material.create (some ["x".toList])
        (MaterialParams.mk [] 0 (0, 0, 0) (0, 0, 0) (0, 0, 0) (0, 0, 0) 0 0 0)).Kd
      = (0, 0, 0)
    ∧ Material.create (some ["x".toList])
        (MaterialParams.mk [] 0 (0, 0, 0) (0, 0, 0) (0, 0, 0) (0, 0, 0) 0 0 0)
      ≠ setDefaultParams := by
  have hval : Material.create (some ["x".toList])
      (MaterialParams.mk [] 0 (0, 0, 0) (0, 0, 0) (0, 0, 0) (0, 0, 0) 0 0 0)
      = MaterialParams.mk [] 0 (0, 0, 0) (0, 0, 0) (0, 0, 0) (0, 0, 0) 0 0 0 := by
    decide
  refine ⟨by rw [hval], ?_⟩
  intro hEq
  rw [hval] at hEq
  have h2 : (0 : ℚ) = 10 := congrArg MaterialParams.Ns hEq
  norm_num at h2

/-- Claim C8, amended: When the material file cannot be opened, creation
substitutes exactly the fallback constant set (`Ka=(0,0,0)`,
`Kd=(0.8,0.8,0.8)`, `Ks=(0,0,0)`, opacity 1, illum 2, Ns 10) and continues;
a file that opens is processed line by line and always reported as a
successful parse, so no defaults are substituted for unparseable content. -/
theorem material_defaults_on_unreadable :
    (∀ init : MaterialParams, Material.create none init = setDefaultParams)
    ∧ setDefaultParams.Ka = (0, 0, 0)
    ∧ setDefaultParams.Kd = (4/5, 4/5, 4/5)
    ∧ setDefaultParams.Ks = (0, 0, 0)
    ∧ setDefaultParams.opacity = 1
    ∧ setDefaultParams.illum = 2
    ∧ setDefaultParams.Ns = 10
    ∧ (∀ (init : MaterialParams) (lines : List (List Char)),
        Material.create (some lines) init = lines.foldl parseMtlLine init) :=
  ⟨fun _ => rfl, rfl, rfl, rfl, rfl, rfl, rfl, fun _ _ => rfl⟩

/-- A left fold that adds `f v` at each step computes the sum of the mapped
list. -/
theorem foldl_add_map_sum (f : Vertex → ℚ) (l : List Vertex) :
    ∀ a : ℚ, l.foldl (fun s v => s + f v) a = a + (l.map f).sum := by
  induction l with
  | nil => intro a; simp
  | cons x xs ih =>
    intro a
    simp only [List.foldl_cons, List.map_cons, List.sum_cons, ih]
    ring

/-- Claim C9: For a non-empty vertex list the computed center is the
arithmetic mean of the vertex positions (componentwise sum over count), and
it is invariant under every permutation of the vertex list. -/
theorem center_is_mean (vs vs' : List Vertex) (_hne : vs ≠ [])
    (hperm : vs.Perm vs') :
    calculateCenter vs
        = ((vs.map fun v => v.position.1).sum / (vs.length : ℚ),
           (vs.map fun v => v.position.2.1).sum / (vs.length : ℚ),
           (vs.map fun v => v.position.2.2).sum / (vs.length : ℚ))
      ∧ calculateCenter vs = calculateCenter vs' := by
  have hmean : ∀ l : List Vertex,
      calculateCenter l
        = ((l.map fun v => v.position.1).sum / (l.length : ℚ),
           (l.map fun v => v.position.2.1).sum / (l.length : ℚ),
           (l.map fun v => v.position.2.2).sum / (l.length : ℚ)) := by
    intro l
    simp [calculateCenter, foldl_add_map_sum]
  refine ⟨hmean vs, ?_⟩
  rw [hmean vs, hmean vs', hperm.length_eq,
    ((hperm.map fun v => v.position.1).sum_eq :),
    ((hperm.map fun v => v.position.2.1).sum_eq :),
    ((hperm.map fun v => v.position.2.2).sum_eq :)]

/-- Witness for C9 on a concrete two-vertex list and its swap. -/
theorem center_is_mean_witness :
    calculateCenter
        [(⟨(1, 2, 3), (0, 0), (0, 0, 0)⟩ : Vertex), ⟨(4, 5, 6), (0, 0), (0, 0, 0)⟩]
      = ((List.map (fun v => v.position.1)
            [(⟨(1, 2, 3), (0, 0), (0, 0, 0)⟩ : Vertex), ⟨(4, 5, 6), (0, 0), (0, 0, 0)⟩]).sum
          / (([(⟨(1, 2, 3), (0, 0), (0, 0, 0)⟩ : Vertex),
              ⟨(4, 5, 6), (0, 0), (0, 0, 0)⟩].length : ℚ)),
         (List.map (fun v => v.position.2.1)
            [(⟨(1, 2, 3), (0, 0), (0, 0, 0)⟩ : Vertex), ⟨(4, 5, 6), (0, 0), (0, 0, 0)⟩]).sum
          / (([(⟨(1, 2, 3), (0, 0), (0, 0, 0)⟩ : Vertex),
              ⟨(4, 5, 6), (0, 0), (0, 0, 0)⟩].length : ℚ)),
         (List.map (fun v => v.position.2.2)
            [(⟨(1, 2, 3), (0, 0), (0, 0, 0)⟩ : Vertex), ⟨(4, 5, 6), (0, 0), (0, 0, 0)⟩]).sum
          / (([(⟨(1, 2, 3), (0, 0), (0, 0, 0)⟩ : Vertex),
              ⟨(4, 5, 6), (0, 0), (0, 0, 0)⟩].length : ℚ)))
      ∧ calculateCenter
          [(⟨(1, 2, 3), (0, 0), (0, 0, 0)⟩ : Vertex), ⟨(4, 5, 6), (0, 0), (0, 0, 0)⟩]
        = calculateCenter
          [(⟨(4, 5, 6), (0, 0), (0, 0, 0)⟩ : Vertex), ⟨(1, 2, 3), (0, 0), (0, 0, 0)⟩] :=
  center_is_mean _ _ (by decide) (List.Perm.swap _ _ _)

/-- The row-major 4x4 product of `matrixOperations.cpp` is associative. -/
theorem multiplyMatrix_assoc (a b c : Mat16) :
    multiplyMatrix (multiplyMatrix a b) c = multiplyMatrix a (multiplyMatrix b c) := by
  funext i
  fin_cases i <;> (simp [multiplyMatrix]; try ring)

/-- `getIdentityMat4` is a left unit for `multiplyMatrix`. -/
theorem identity_multiplyMatrix (m : Mat16) :
    multiplyMatrix getIdentityMat4 m = m := by
  funext i
  fin_cases i <;> (simp [multiplyMatrix, getIdentityMat4]; try ring)

/-- Two translation matrices built on the identity multiply to the
translation by the sum of the offsets. -/
theorem translate_mul_translate (x1 y1 z1 x2 y2 z2 : ℝ) :
    multiplyMatrix (translateMatrix getIdentityMat4 x1 y1 z1)
        (translateMatrix getIdentityMat4 x2 y2 z2)
      = translateMatrix getIdentityMat4 (x1 + x2) (y1 + y2) (z1 + z2) := by
  funext i
  fin_cases i <;>
    (simp [multiplyMatrix, translateMatrix, getIdentityMat4]; try ring)

/-- Translating the identity by zero offsets is the identity. -/
theorem translate_zero :
    translateMatrix getIdentityMat4 0 0 0 = getIdentityMat4 := by
  funext i
  fin_cases i <;> simp [translateMatrix, getIdentityMat4]

/-- Composition of the code's Y-rotation matrices adds the angles. -/
theorem rotY_mul_rotY (a b : ℝ) :
    multiplyMatrix (getRotationMatrixY a) (getRotationMatrixY b)
      = getRotationMatrixY (a + b) := by
  funext i
  fin_cases i <;>
    (simp [multiplyMatrix, getRotationMatrixY, Real.cos_add, Real.sin_add]; try ring)

/-- Claim C4: `getMatrix` recomputes, in this fixed order, `M = T(-center)`,
then `M = scaleUniform(M, scaleFactor)`, then `M = M * translation`, then
`M = rotation * M`, returning exactly
`rotation * ((scaleUniform(T(-center), scaleFactor)) * translation)`. -/
theorem modelMatrix_composition (obj : ObjectState) :
    getMatrix obj
      = multiplyMatrix obj.rotationMatrix
          (multiplyMatrix
            (scaleMatrix
              (translateMatrix getIdentityMat4
                (-obj.center.1) (-obj.center.2.1) (-obj.center.2.2))
              obj.scaleFactor)
            obj.translationMatrix) := rfl

/-- Claim C6: `rotateAroundCenterY(angle)` sets the rotation matrix to
`(T(-center) * R_y(angle) * T(+center)) * rotation`, and over the reals two
successive calls with angle 90 produce exactly the rotation matrix of one
call with angle 180, from any center and accumulated rotation. -/
theorem rotation_composition (c : ℝ × ℝ × ℝ) (ρ : Mat16) :
    (∀ angle : ℝ,
        updateRotationMatrixY c angle ρ
          = multiplyMatrix
              (multiplyMatrix
                (translateMatrix getIdentityMat4 (-c.1) (-c.2.1) (-c.2.2))
                (multiplyMatrix (getRotationMatrixY angle)
                  (translateMatrix getIdentityMat4 c.1 c.2.1 c.2.2)))
              ρ)
    ∧ updateRotationMatrixY c 90 (updateRotationMatrixY c 90 ρ)
        = updateRotationMatrixY c 180 ρ := by
  have hdef : ∀ (angle : ℝ) (m : Mat16),
      updateRotationMatrixY c angle m
        = multiplyMatrix
            (multiplyMatrix
              (translateMatrix getIdentityMat4 (-c.1) (-c.2.1) (-c.2.2))
              (multiplyMatrix (getRotationMatrixY angle)
                (translateMatrix getIdentityMat4 c.1 c.2.1 c.2.2)))
            m := fun _ _ => rfl
  refine ⟨fun angle => hdef angle ρ, ?_⟩
  have hcancel : ∀ m : Mat16,
      multiplyMatrix (translateMatrix getIdentityMat4 c.1 c.2.1 c.2.2)
          (multiplyMatrix (translateMatrix getIdentityMat4 (-c.1) (-c.2.1) (-c.2.2)) m)
        = m := by
    intro m
    rw [← multiplyMatrix_assoc, translate_mul_translate,
      show c.1 + -c.1 = (0 : ℝ) from by ring,
      show c.2.1 + -c.2.1 = (0 : ℝ) from by ring,
      show c.2.2 + -c.2.2 = (0 : ℝ) from by ring,
      translate_zero, identity_multiplyMatrix]
  have hrot : ∀ (a b : ℝ) (m : Mat16),
      multiplyMatrix (getRotationMatrixY a) (multiplyMatrix (getRotationMatrixY b) m)
        = multiplyMatrix (getRotationMatrixY (a + b)) m := by
    intro a b m
    rw [← multiplyMatrix_assoc, rotY_mul_rotY]
  have key : ∀ a b : ℝ,
      updateRotationMatrixY c a (updateRotationMatrixY c b ρ)
        = updateRotationMatrixY c (a + b) ρ := by
    intro a b
    simp only [hdef, multiplyMatrix_assoc, hcancel, hrot]
  have h := key 90 90
  rw [h]
  norm_num

/-- Claim C7: `normalizeVec` divides by the computed length when it is
nonzero — which happens exactly when the vector is nonzero — and returns
exactly `(0,0,0)` for a zero-length input instead of dividing by zero. -/
theorem normalize_zero_guard (v : ℝ × ℝ × ℝ) :
    (vecLength v = 0 ↔ v = (0, 0, 0))
    ∧ normalizeVec v
        = if vecLength v = 0 then (0, 0, 0)
          else (v.1 / vecLength v, v.2.1 / vecLength v, v.2.2 / vecLength v) := by
  refine ⟨⟨?_, ?_⟩, rfl⟩
  · intro h
    unfold vecLength at h
    have hnn : (0 : ℝ) ≤ v.1 * v.1 + v.2.1 * v.2.1 + v.2.2 * v.2.2 := by
      have a1 := mul_self_nonneg v.1
      have a2 := mul_self_nonneg v.2.1
      have a3 := mul_self_nonneg v.2.2
      linarith
    have hsum : v.1 * v.1 + v.2.1 * v.2.1 + v.2.2 * v.2.2 = 0 :=
      (Real.sqrt_eq_zero hnn).mp h
    have h1 : v.1 = 0 := by
      nlinarith [mul_self_nonneg v.1, mul_self_nonneg v.2.1, mul_self_nonneg v.2.2]
    have h2 : v.2.1 = 0 := by
      nlinarith [mul_self_nonneg v.1, mul_self_nonneg v.2.1, mul_self_nonneg v.2.2]
    have h3 : v.2.2 = 0 := by
      nlinarith [mul_self_nonneg v.1, mul_self_nonneg v.2.1, mul_self_nonneg v.2.2]
    have hv : v = (v.1, v.2.1, v.2.2) := rfl
    rw [hv, h1, h2, h3]
  · intro h
    rw [h]
    simp [vecLength]

end Scop
